import Mathlib

/-!
Verification of the ChainYodha.Ai feature-engineering and explanation core
(src/ml/feature_engineering.py and src/ml/explain.py), shallowly embedded in
Lean 4.  Python floats are modelled as exact rationals (ℚ); the two
transcendental primitives used by the pipeline (numpy's log1p and sqrt) are
abstracted as a parameter structure, since no verified property depends on
their values.  Python dicts are modelled as association lists (first match
wins, insertion order preserved), matching how the source builds and reads
its feature dictionaries.
-/

namespace ChainYodha

/-- Abstract transcendental primitives (np.log1p, np.sqrt).  The pipeline
only pipes their outputs through; no claim depends on their values. -/
structure MathPrims where
  log1p : ℚ → ℚ
  sqrtQ : ℚ → ℚ

/-- A feature map: Python dict from feature name to float, as an assoc list. -/
abbrev FeatureMap := List (String × ℚ)

/-- Dict lookup returning an Option (Python `name in d` / `d[name]`). -/
def FeatureMap.find (m : FeatureMap) (k : String) : Option ℚ :=
  match m with
  | [] => none
  | (k', v) :: rest => if k' = k then some v else FeatureMap.find rest k

/-- Python `d.get(name, 0)`. -/
def FeatureMap.getQ (m : FeatureMap) (k : String) : ℚ :=
  (FeatureMap.find m k).getD 0

/-- Configuration of the pipeline (`FeatureConfig` dataclass). -/
structure FeatureConfig where
  use_log_transform : Bool
  use_robust_scaling : Bool
  handle_outliers : Bool
  outlier_threshold : ℚ
  min_transactions_threshold : ℕ

/-- The dataclass defaults. -/
def defaultConfig : FeatureConfig :=
  { use_log_transform := true
    use_robust_scaling := true
    handle_outliers := true
    outlier_threshold := 3
    min_transactions_threshold := 5 }

/-- One entry of a wallet's `top_tokens` list ({'percentage': ..., 'symbol': ...});
only `percentage` is ever read (with default 0). -/
structure TokenHolding where
  percentage : Option ℚ
deriving DecidableEq

/-- A raw wallet record: an open mapping whose recognized keys are the ones
below; an absent key is `none` and defaults to 0 / False / [] at each
`wallet_data.get(...)` site in the source. -/
structure RawWalletRecord where
  total_transactions : Option ℚ
  contract_interactions : Option ℚ
  unique_contracts_interacted : Option ℚ
  average_transaction_value : Option ℚ
  swap_frequency : Option ℚ
  bridge_transactions : Option ℚ
  portfolio_volatility : Option ℚ
  account_age : Option ℚ
  has_ens : Option Bool
  farcaster_followers : Option ℚ
  github_contributions : Option ℚ
  top_tokens : Option (List TokenHolding)
deriving DecidableEq

/-- All recognized numeric signals of the record are non-negative (absent
signals default to 0). -/
def RawWalletRecord.nonNegSignals (w : RawWalletRecord) : Prop :=
  0 ≤ w.total_transactions.getD 0 ∧ 0 ≤ w.contract_interactions.getD 0 ∧
  0 ≤ w.unique_contracts_interacted.getD 0 ∧ 0 ≤ w.average_transaction_value.getD 0 ∧
  0 ≤ w.swap_frequency.getD 0 ∧ 0 ≤ w.bridge_transactions.getD 0 ∧
  0 ≤ w.portfolio_volatility.getD 0 ∧ 0 ≤ w.account_age.getD 0 ∧
  0 ≤ w.farcaster_followers.getD 0 ∧ 0 ≤ w.github_contributions.getD 0 ∧
  ∀ t ∈ w.top_tokens.getD [], 0 ≤ t.percentage.getD 0

instance (w : RawWalletRecord) : Decidable w.nonNegSignals := by
  unfold RawWalletRecord.nonNegSignals
  infer_instance

/-- The record with every recognized key absent (Python `{}`). -/
def emptyRecord : RawWalletRecord :=
  { total_transactions := none
    contract_interactions := none
    unique_contracts_interacted := none
    average_transaction_value := none
    swap_frequency := none
    bridge_transactions := none
    portfolio_volatility := none
    account_age := none
    has_ens := none
    farcaster_followers := none
    github_contributions := none
    top_tokens := none }

/-- The record with every recognized key present at its zero/neutral value. -/
def zeroRecord : RawWalletRecord :=
  { total_transactions := some 0
    contract_interactions := some 0
    unique_contracts_interacted := some 0
    average_transaction_value := some 0
    swap_frequency := some 0
    bridge_transactions := some 0
    portfolio_volatility := some 0
    account_age := some 0
    has_ens := some false
    farcaster_followers := some 0
    github_contributions := some 0
    top_tokens := some [] }

/-- `FeatureEngineer.extract_onchain_features`. -/
def extractOnchainFeatures (P : MathPrims) (cfg : FeatureConfig)
    (w : RawWalletRecord) : FeatureMap :=
  let tx_count := w.total_transactions.getD 0
  let contract_interactions := w.contract_interactions.getD 0
  let unique_contracts := w.unique_contracts_interacted.getD 0
  let avg_tx_value := w.average_transaction_value.getD 0
  let swap_frequency := w.swap_frequency.getD 0
  let bridge_txs := w.bridge_transactions.getD 0
  let portfolio_volatility := w.portfolio_volatility.getD 0
  let top_tokens := w.top_tokens.getD []
  let hhi := ((top_tokens.map (fun t => ((t.percentage.getD 0) / 100) ^ 2)).sum)
  let account_age := w.account_age.getD 0
  [ ("tx_count", tx_count),
    ("tx_count_log", if cfg.use_log_transform then P.log1p tx_count else tx_count),
    ("contract_interactions", contract_interactions),
    ("contract_interaction_ratio", contract_interactions / max tx_count 1),
    ("unique_contracts", unique_contracts),
    ("contract_diversity", unique_contracts / max contract_interactions 1),
    ("avg_tx_value", avg_tx_value),
    ("avg_tx_value_log", if cfg.use_log_transform then P.log1p avg_tx_value else avg_tx_value),
    ("swap_frequency", swap_frequency),
    ("swap_ratio", swap_frequency / max tx_count 1),
    ("bridge_transactions", bridge_txs),
    ("bridge_ratio", bridge_txs / max tx_count 1),
    ("portfolio_volatility", portfolio_volatility),
    ("portfolio_stability", 1 / (1 + portfolio_volatility)),
    ("token_count", (top_tokens.length : ℚ)),
    ("token_concentration", if top_tokens.isEmpty then 1 else hhi),
    ("token_diversity", if top_tokens.isEmpty then 0 else 1 - hhi),
    ("account_age", account_age),
    ("account_age_log", if cfg.use_log_transform then P.log1p account_age else account_age),
    ("tx_per_day", tx_count / max account_age 1) ]

/-- `FeatureEngineer.extract_offchain_features`. -/
def extractOffchainFeatures (P : MathPrims) (cfg : FeatureConfig)
    (w : RawWalletRecord) : FeatureMap :=
  let has_ens := w.has_ens.getD false
  let farcaster_followers := w.farcaster_followers.getD 0
  let github_contributions := w.github_contributions.getD 0
  let social_signals : ℚ :=
    (if farcaster_followers > 0 then 1 else 0) +
    (if github_contributions > 0 then 1 else 0) +
    (if has_ens then 1 else 0)
  [ ("has_ens", if has_ens then 1 else 0),
    ("farcaster_followers", farcaster_followers),
    ("farcaster_followers_log",
      if cfg.use_log_transform then P.log1p farcaster_followers else farcaster_followers),
    ("has_farcaster", if farcaster_followers > 0 then 1 else 0),
    ("github_contributions", github_contributions),
    ("github_contributions_log",
      if cfg.use_log_transform then P.log1p github_contributions else github_contributions),
    ("has_github", if github_contributions > 0 then 1 else 0),
    ("social_signal_count", social_signals),
    ("social_presence", social_signals / 3) ]

/-- `FeatureEngineer.create_composite_features`. -/
def createCompositeFeatures (P : MathPrims)
    (onchain offchain : FeatureMap) : FeatureMap :=
  let tx_count := onchain.getQ "tx_count"
  let social_presence := offchain.getQ "social_presence"
  let has_ens := offchain.getQ "has_ens"
  let contract_diversity := onchain.getQ "contract_diversity"
  let account_age := onchain.getQ "account_age"
  let portfolio_volatility := onchain.getQ "portfolio_volatility"
  let tx_per_day := onchain.getQ "tx_per_day"
  let high_frequency_risk : ℚ := if tx_per_day > 10 then 1 else 0
  let volatility_risk := min (portfolio_volatility / 2) 1
  [ ("activity_social_score", P.sqrtQ tx_count * (1 + social_presence)),
    ("trust_indicators",
      has_ens * (3/10) + min contract_diversity 1 * (4/10) + min (account_age / 365) 1 * (3/10)),
    ("risk_indicators", high_frequency_risk * (6/10) + volatility_risk * (4/10)) ]

/-- Fitted per-feature scaler.  RobustScaler (the configured default) centers
on the median and scales by the IQR; StandardScaler on mean/std.  Either way a
fitted scaler transforms a single value as `(v - center) / scale`. -/
structure ScalerEntry where
  center : ℚ
  scale : ℚ

/-- `self.feature_stats`: per-feature aggregate statistics of the fitting
batch (mean/std/min/max/median column dicts). -/
structure FeatureStats where
  mean : FeatureMap
  std : FeatureMap
  smin : FeatureMap
  smax : FeatureMap
  median : FeatureMap

/-- Scaler-store lookup (Python `name in self.scalers` / `self.scalers[name]`). -/
def findScaler : List (String × ScalerEntry) → String → Option ScalerEntry
  | [], _ => none
  | (k', v) :: rest, k => if k' = k then some v else findScaler rest k

/-- The mutable state of a `FeatureEngineer` instance. -/
structure FeatureEngineer where
  config : FeatureConfig
  scalers : List (String × ScalerEntry)
  feature_stats : Option FeatureStats
  is_fitted : Bool

/-- `FeatureEngineer.__init__` with the default config: empty scaler store,
empty stats, not fitted. -/
def initEngineer : FeatureEngineer :=
  { config := defaultConfig
    scalers := []
    feature_stats := none
    is_fitted := false }

/-- np.sign. -/
def signQ (x : ℚ) : ℚ := if x > 0 then 1 else if x < 0 then -1 else 0

/-- The fixed whitelist of continuous features eligible for outlier clipping. -/
def continuousFeatures : List String :=
  [ "tx_count", "contract_interactions", "avg_tx_value",
    "swap_frequency", "portfolio_volatility", "account_age",
    "farcaster_followers", "github_contributions" ]

/-- `FeatureEngineer._handle_outliers`.  The source iterates over the
whitelist updating the dict in place; on a dict (no duplicate keys, order
preserved) that is the same as mapping each entry through the clip.  The
clip fires only when the engineer is fitted and the feature has a fitted
mean; `fit_scalers` populates the mean and std column dicts with identical
key sets, so the std read is modelled with the same presence. -/
def clipEntry (e : FeatureEngineer) (p : String × ℚ) : String × ℚ :=
  if p.1 ∈ continuousFeatures then
    match e.is_fitted, e.feature_stats with
    | true, some st =>
      match st.mean.find p.1 with
      | some m =>
        let s := (st.std.find p.1).getD 0
        if |p.2 - m| > e.config.outlier_threshold * s then
          (p.1, m + signQ (p.2 - m) * e.config.outlier_threshold * s)
        else p
      | none => p
    | _, _ => p
  else p

/-- The full pass of `_handle_outliers` over the feature dict. -/
def handleOutliers (e : FeatureEngineer) (features : FeatureMap) : FeatureMap :=
  features.map (clipEntry e)

/-- `FeatureEngineer.engineer_features`: union of the three extraction maps
(their key sets are disjoint, so dict union is list append), then outlier
handling when configured. -/
def engineerFeatures (P : MathPrims) (e : FeatureEngineer)
    (w : RawWalletRecord) : FeatureMap :=
  let onchain := extractOnchainFeatures P e.config w
  let offchain := extractOffchainFeatures P e.config w
  let composite := createCompositeFeatures P onchain offchain
  let all := onchain ++ offchain ++ composite
  if e.config.handle_outliers then handleOutliers e all else all

/-- Linear-interpolation quantile over a sorted nonempty list (numpy / pandas
default method), used for medians and the RobustScaler's IQR. -/
def quantileQ (sorted : List ℚ) (q : ℚ) : ℚ :=
  let n := sorted.length
  if n = 0 then 0
  else
    let pos := q * ((n : ℚ) - 1)
    let i := max 0 (min (n - 1) pos.floor.toNat)
    let j := min (n - 1) (i + 1)
    let lo := sorted.getD i 0
    let hi := sorted.getD j 0
    lo + (pos - (i : ℚ)) * (hi - lo)

/-- Column values of a feature over the batch (pandas DataFrame column; the
spec assumes all batch members share the first member's key set). -/
def columnValues (batch : List FeatureMap) (name : String) : List ℚ :=
  batch.map (fun f => f.getQ name)

/-- Sample standard deviation (pandas default, ddof = 1), via the abstract
square root; the n = 1 division-by-zero (NaN in pandas) never feeds a claim. -/
def sampleStd (P : MathPrims) (xs : List ℚ) : ℚ :=
  let n := xs.length
  let m := xs.sum / (n : ℚ)
  P.sqrtQ ((xs.map (fun x => (x - m) ^ 2)).sum / ((n : ℚ) - 1))

/-- Fit one RobustScaler / StandardScaler on a column. -/
def fitOneScaler (P : MathPrims) (cfg : FeatureConfig) (xs : List ℚ) : ScalerEntry :=
  let sorted := xs.mergeSort (fun a b => a ≤ b)
  if cfg.use_robust_scaling then
    let iqr := quantileQ sorted (3/4) - quantileQ sorted (1/4)
    { center := quantileQ sorted (1/2), scale := if iqr = 0 then 1 else iqr }
  else
    let s := sampleStd P xs
    { center := xs.sum / (xs.length : ℚ), scale := if s = 0 then 1 else s }

/-- Aggregate statistics of the batch, per column. -/
def computeStats (P : MathPrims) (cols : List String) (batch : List FeatureMap) :
    FeatureStats :=
  { mean := cols.map (fun c => (c, (columnValues batch c).sum / ((columnValues batch c).length : ℚ)))
    std := cols.map (fun c => (c, sampleStd P (columnValues batch c)))
    smin := cols.map (fun c => (c, ((columnValues batch c).mergeSort (fun a b => a ≤ b)).headD 0))
    smax := cols.map (fun c => (c, ((columnValues batch c).mergeSort (fun a b => a ≤ b)).getLastD 0))
    median := cols.map (fun c => (c, quantileQ ((columnValues batch c).mergeSort (fun a b => a ≤ b)) (1/2))) }

/-- `FeatureEngineer.fit_scalers`.  Returns the engineer state after the
call together with the call's outcome: an empty batch raises (ValueError —
the spec's ConfigurationError) before any state is touched; otherwise the
stats and one scaler per column are stored and the fitted flag set. -/
def fitScalers (P : MathPrims) (e : FeatureEngineer) (batch : List FeatureMap) :
    FeatureEngineer × Except String Unit :=
  if batch.isEmpty then
    (e, Except.error "No feature data provided for fitting scalers")
  else
    let cols := (batch.headD []).map Prod.fst
    ({ e with
        feature_stats := some (computeStats P cols batch)
        scalers := cols.map (fun c => (c, fitOneScaler P e.config (columnValues batch c)))
        is_fitted := true },
     Except.ok ())

/-- `FeatureEngineer.transform_features`: before fitting, a warning is
logged and the input returned unchanged; after fitting, each feature with a
stored scaler is transformed, the rest pass through. -/
def transformFeatures (e : FeatureEngineer) (features : FeatureMap) : FeatureMap :=
  if e.is_fitted = false then features
  else
    features.map (fun p =>
      match findScaler e.scalers p.1 with
      | some sc => (p.1, (p.2 - sc.center) / sc.scale)
      | none => p)

/-- The unit `save_scalers` persists: scalers, stats and config. -/
structure SavedUnit where
  scalers : List (String × ScalerEntry)
  feature_stats : Option FeatureStats
  config : FeatureConfig

/-- `FeatureEngineer.save_scalers`: first component is the value returned to
the caller (always None, no raise path in the source), second the payload
written to disk — `none` when the guard `if self.is_fitted` skips the dump. -/
def saveScalers (e : FeatureEngineer) : Unit × Option SavedUnit :=
  ((), if e.is_fitted then
        some { scalers := e.scalers, feature_stats := e.feature_stats, config := e.config }
      else none)

/-- `FeatureEngineer.get_feature_importance_weights`: the fixed hand-authored
attribution table (risk_indicators deliberately negative). -/
def featureImportanceWeights : FeatureMap :=
  [ ("tx_count_log", 15/100),
    ("contract_interaction_ratio", 12/100),
    ("unique_contracts", 10/100),
    ("account_age_log", 10/100),
    ("swap_ratio", 8/100),
    ("portfolio_stability", 8/100),
    ("token_diversity", 6/100),
    ("has_ens", 5/100),
    ("social_presence", 5/100),
    ("trust_indicators", 8/100),
    ("activity_social_score", 6/100),
    ("bridge_ratio", 4/100),
    ("risk_indicators", -3/100) ]

/-- `TrustScoreExplainer.feature_descriptions` lookup with the feature name
itself as the fallback (`self.feature_descriptions.get(name, name)`). -/
def featureDescription (name : String) : String :=
  let table : List (String × String) :=
    [ ("tx_count_log", "Transaction history depth"),
      ("contract_interaction_ratio", "Smart contract usage frequency"),
      ("unique_contracts", "Diversity of contract interactions"),
      ("account_age_log", "Account maturity"),
      ("swap_ratio", "DeFi trading activity"),
      ("portfolio_stability", "Portfolio risk management"),
      ("token_diversity", "Asset diversification"),
      ("has_ens", "ENS domain ownership"),
      ("social_presence", "Social media engagement"),
      ("trust_indicators", "Overall trust signals"),
      ("activity_social_score", "Activity-social composite"),
      ("bridge_ratio", "Cross-chain activity"),
      ("risk_indicators", "Risk factors"),
      ("avg_tx_value_log", "Transaction size patterns"),
      ("contract_diversity", "Contract interaction diversity"),
      ("farcaster_followers_log", "Farcaster social presence"),
      ("github_contributions_log", "Developer activity") ]
  ((table.lookup name).getD name)

/-- `FeatureContribution` dataclass. -/
structure FeatureContribution where
  feature_name : String
  value : ℚ
  contribution : ℚ
  importance : ℚ
  description : String
deriving DecidableEq

/-- The raw weighted contribution of one feature on the deterministic path:
`scaled_value * weight * 100`, with the 0.01 default weight for names absent
from the fixed table. -/
def rawContribution (scaled : FeatureMap) (name : String) : ℚ :=
  scaled.getQ name * ((featureImportanceWeights.find name).getD (1/100)) * 100

/-- The normalization base `total_weighted_contribution = Σ |raw|`. -/
def totalAbsContribution (names : List String) (scaled : FeatureMap) : ℚ :=
  (names.map (fun n => |rawContribution scaled n|)).sum

/-- The `FeatureContribution` built for one feature by the loop body of
`_get_deterministic_contributions` (before normalization). -/
def detRawContribution (scaled : FeatureMap) (n : String) : FeatureContribution :=
  { feature_name := n
    value := scaled.getQ n
    contribution := rawContribution scaled n
    importance := |rawContribution scaled n|
    description := featureDescription n }

/-- `TrustScoreExplainer._get_deterministic_contributions`.  Builds one
contribution per declared feature name (importance = |raw| at creation, never
updated), then — when the accumulated Σ|raw| is strictly positive — rescales
each signed contribution by `(predicted_score - 50) / Σ|raw|`.  (The inner
`if total != 0 else 1` of the source is unreachable inside the positive
branch.) -/
def getDeterministicContributions (names : List String) (scaled : FeatureMap)
    (predicted_score : ℚ) : List FeatureContribution :=
  let raws := names.map (detRawContribution scaled)
  let total := totalAbsContribution names scaled
  if total > 0 then
    let factor := (predicted_score - 50) / total
    raws.map (fun c => { c with contribution := c.contribution * factor })
  else raws

/-- `TrustScoreExplainer._get_shap_contributions`.  The external explainer
call is the only fallible step of the try block; its outcome is a signed
value per feature or a failure.  On failure the source falls back to the
deterministic path **at score 50.0** (not the request's predicted score). -/
def getShapContributions (outcome : Except Unit (List ℚ)) (names : List String)
    (scaled : FeatureMap) : List FeatureContribution :=
  match outcome with
  | Except.ok shap_values =>
    (names.enum).map (fun p =>
      { feature_name := p.2
        value := scaled.getQ p.2
        contribution := shap_values.getD p.1 0
        importance := |shap_values.getD p.1 0|
        description := featureDescription p.2 : FeatureContribution })
  | Except.error _ => getDeterministicContributions names scaled 50

/-- The fixed quality-signal whitelist of `_calculate_confidence`. -/
def qualityFeatures : List String :=
  [ "tx_count_log", "account_age_log", "contract_interaction_ratio",
    "has_ens", "social_presence" ]

/-- `TrustScoreExplainer._calculate_confidence`. -/
def calculateConfidence (names : List String) (scaled : FeatureMap)
    (contributions : List FeatureContribution) : ℚ :=
  let available := (names.filter (fun n => scaled.getQ n ≠ 0)).length
  let feature_availability := (available : ℚ) / (names.length : ℚ)
  let base := feature_availability * 40
  let total_importance := (contributions.map (fun c => c.importance)).sum
  let importance_confidence :=
    if total_importance > 0 then min (total_importance / 20) 1 * 30 else 0
  let quality_score := (qualityFeatures.filter (fun n => scaled.getQ n > 0)).length
  let quality_confidence := ((quality_score : ℚ) / (qualityFeatures.length : ℚ)) * 30
  min (base + importance_confidence + quality_confidence) 100

/-- `TrustScoreExplanation` (the narrative `explanation_text`, pure string
formatting of rounded floats, is outside the verified fragment; no claim
concerns it). -/
structure TrustScoreExplanation where
  predicted_score : ℚ
  base_score : ℚ
  feature_contributions : List FeatureContribution
  top_positive_factors : List FeatureContribution
  top_negative_factors : List FeatureContribution
  confidence : ℚ

/-- The optional model-introspection explainer capability: absent, or a
function from the feature vector to one signed value per feature — which may
itself fail at explanation time. -/
def ShapCapability : Type := Option (List ℚ → Except Unit (List ℚ))

/-- `TrustScoreExplainer.explain_prediction`: engineer → scale → predict →
attribute (model path when the capability exists, deterministic otherwise) →
rank → confidence. -/
def explainPrediction (P : MathPrims) (e : FeatureEngineer)
    (names : List String) (model : List ℚ → ℚ) (explainer : ShapCapability)
    (w : RawWalletRecord) : TrustScoreExplanation :=
  let features := engineerFeatures P e w
  let scaled := transformFeatures e features
  let feature_vector := names.map (fun n => scaled.getQ n)
  let predicted_score := model feature_vector
  let contributions :=
    match explainer with
    | some ex => getShapContributions (ex feature_vector) names scaled
    | none => getDeterministicContributions names scaled predicted_score
  let positive := (contributions.filter (fun c => c.contribution > 0)).mergeSort
    (fun a b => b.contribution ≤ a.contribution)
  let negative := (contributions.filter (fun c => c.contribution < 0)).mergeSort
    (fun a b => a.contribution ≤ b.contribution)
  { predicted_score := predicted_score
    base_score := 50
    feature_contributions := contributions
    top_positive_factors := positive.take 5
    top_negative_factors := negative.take 5
    confidence := calculateConfidence names scaled contributions }

/-! ### Helper lemmas -/

/-- Concrete primitives used to instantiate witnesses and counterexamples
(the identity is as good as any other function here). -/
def testPrims : MathPrims :=
  { log1p := fun x => x, sqrtQ := fun x => x }

theorem find_onchain_interaction_ratio (P : MathPrims) (cfg : FeatureConfig)
    (w : RawWalletRecord) :
    (extractOnchainFeatures P cfg w).find "contract_interaction_ratio"
      = some (w.contract_interactions.getD 0 / max (w.total_transactions.getD 0) 1) := rfl

theorem find_onchain_contract_diversity (P : MathPrims) (cfg : FeatureConfig)
    (w : RawWalletRecord) :
    (extractOnchainFeatures P cfg w).find "contract_diversity"
      = some (w.unique_contracts_interacted.getD 0 / max (w.contract_interactions.getD 0) 1) := rfl

theorem find_onchain_swap_ratio (P : MathPrims) (cfg : FeatureConfig)
    (w : RawWalletRecord) :
    (extractOnchainFeatures P cfg w).find "swap_ratio"
      = some (w.swap_frequency.getD 0 / max (w.total_transactions.getD 0) 1) := rfl

theorem find_onchain_bridge_ratio (P : MathPrims) (cfg : FeatureConfig)
    (w : RawWalletRecord) :
    (extractOnchainFeatures P cfg w).find "bridge_ratio"
      = some (w.bridge_transactions.getD 0 / max (w.total_transactions.getD 0) 1) := rfl

theorem find_onchain_token_concentration (P : MathPrims) (cfg : FeatureConfig)
    (w : RawWalletRecord) :
    (extractOnchainFeatures P cfg w).find "token_concentration"
      = some (if (w.top_tokens.getD []).isEmpty then 1
              else (((w.top_tokens.getD []).map
                      (fun t => ((t.percentage.getD 0) / 100) ^ 2)).sum)) := rfl

theorem find_onchain_token_diversity (P : MathPrims) (cfg : FeatureConfig)
    (w : RawWalletRecord) :
    (extractOnchainFeatures P cfg w).find "token_diversity"
      = some (if (w.top_tokens.getD []).isEmpty then 0
              else 1 - (((w.top_tokens.getD []).map
                      (fun t => ((t.percentage.getD 0) / 100) ^ 2)).sum)) := rfl

/-- The spec's worked example record (§8). -/
def exampleRecord : RawWalletRecord :=
  { total_transactions := some 150
    contract_interactions := some 45
    unique_contracts_interacted := some 12
    average_transaction_value := some (1/2)
    swap_frequency := some 20
    bridge_transactions := some 3
    portfolio_volatility := some (4/5)
    account_age := some 180
    has_ens := some true
    farcaster_followers := some 50
    github_contributions := some 25
    top_tokens := some [{ percentage := some 60 }, { percentage := some 30 },
                        { percentage := some 10 }] }

/-- A record whose only present signal is `unique_contracts_interacted = 2`. -/
def soloUniqueRecord : RawWalletRecord :=
  { emptyRecord with unique_contracts_interacted := some 2 }

/-! ### Claims -/

/-- Claim C5: for every record, `token_concentration + token_diversity = 1`
exactly; for a non-empty `top_tokens` list the concentration is the
Herfindahl index `Σ (pct/100)²` and the diversity its complement, and for an
empty list they are exactly 1 and 0. -/
theorem token_concentration_diversity (P : MathPrims) (cfg : FeatureConfig)
    (w : RawWalletRecord) :
    (extractOnchainFeatures P cfg w).getQ "token_concentration"
      + (extractOnchainFeatures P cfg w).getQ "token_diversity" = 1
    ∧ (w.top_tokens.getD [] = [] →
        (extractOnchainFeatures P cfg w).getQ "token_concentration" = 1
        ∧ (extractOnchainFeatures P cfg w).getQ "token_diversity" = 0)
    ∧ (w.top_tokens.getD [] ≠ [] →
        (extractOnchainFeatures P cfg w).getQ "token_concentration"
          = ((w.top_tokens.getD []).map (fun t => ((t.percentage.getD 0) / 100) ^ 2)).sum
        ∧ (extractOnchainFeatures P cfg w).getQ "token_diversity"
          = 1 - ((w.top_tokens.getD []).map (fun t => ((t.percentage.getD 0) / 100) ^ 2)).sum) := by
  have hc := find_onchain_token_concentration P cfg w
  have hd := find_onchain_token_diversity P cfg w
  unfold FeatureMap.getQ
  rw [hc, hd]
  simp only [Option.getD_some]
  by_cases h : w.top_tokens.getD [] = []
  · simp [h]
  · have h' : ¬(w.top_tokens.getD []).isEmpty := by
      simpa [List.isEmpty_iff] using h
    simp [h', h]

/-- Witness for C5 at the spec's worked example: concentration 0.46,
diversity 0.54. -/
theorem token_concentration_diversity_witness :
    (extractOnchainFeatures testPrims defaultConfig exampleRecord).getQ "token_concentration"
      = 46/100
    ∧ (extractOnchainFeatures testPrims defaultConfig exampleRecord).getQ "token_diversity"
      = 54/100 := by
  have h := (token_concentration_diversity testPrims defaultConfig exampleRecord).2.2
    (by simp [exampleRecord])
  refine ⟨?_, ?_⟩
  · rw [h.1]; norm_num [exampleRecord]
  · rw [h.2]; norm_num [exampleRecord]

/-- Claim C2 (amended): for a record whose recognized numeric signals are all
non-negative, the four ratio features are each non-negative, and each is at
most 1 provided its numerator does not exceed its floored denominator —
without those side conditions the upper bound fails (see the
counterexample). -/
theorem onchain_ratios_bounds (P : MathPrims) (cfg : FeatureConfig)
    (w : RawWalletRecord) (hnn : w.nonNegSignals) :
    (0 ≤ (extractOnchainFeatures P cfg w).getQ "contract_interaction_ratio"
      ∧ 0 ≤ (extractOnchainFeatures P cfg w).getQ "contract_diversity"
      ∧ 0 ≤ (extractOnchainFeatures P cfg w).getQ "swap_ratio"
      ∧ 0 ≤ (extractOnchainFeatures P cfg w).getQ "bridge_ratio")
    ∧ (w.contract_interactions.getD 0 ≤ max (w.total_transactions.getD 0) 1 →
        (extractOnchainFeatures P cfg w).getQ "contract_interaction_ratio" ≤ 1)
    ∧ (w.unique_contracts_interacted.getD 0 ≤ max (w.contract_interactions.getD 0) 1 →
        (extractOnchainFeatures P cfg w).getQ "contract_diversity" ≤ 1)
    ∧ (w.swap_frequency.getD 0 ≤ max (w.total_transactions.getD 0) 1 →
        (extractOnchainFeatures P cfg w).getQ "swap_ratio" ≤ 1)
    ∧ (w.bridge_transactions.getD 0 ≤ max (w.total_transactions.getD 0) 1 →
        (extractOnchainFeatures P cfg w).getQ "bridge_ratio" ≤ 1) := by
  obtain ⟨h1, h2, h3, h4, h5, h6, h7, h8, h9, h10, h11⟩ := hnn
  have hpos : ∀ x : ℚ, (0 : ℚ) < max x 1 :=
    fun x => lt_of_lt_of_le zero_lt_one (le_max_right x 1)
  unfold FeatureMap.getQ
  rw [find_onchain_interaction_ratio, find_onchain_contract_diversity,
    find_onchain_swap_ratio, find_onchain_bridge_ratio]
  simp only [Option.getD_some]
  refine ⟨⟨?_, ?_, ?_, ?_⟩, ?_, ?_, ?_, ?_⟩
  · exact div_nonneg h2 (le_of_lt (hpos _))
  · exact div_nonneg h3 (le_of_lt (hpos _))
  · exact div_nonneg h5 (le_of_lt (hpos _))
  · exact div_nonneg h6 (le_of_lt (hpos _))
  · exact fun hle => (div_le_one (hpos _)).mpr hle
  · exact fun hle => (div_le_one (hpos _)).mpr hle
  · exact fun hle => (div_le_one (hpos _)).mpr hle
  · exact fun hle => (div_le_one (hpos _)).mpr hle

/-- Witness for the amended C2 at the spec's worked example record:
`contract_interaction_ratio = 45/150` lies in [0, 1]. -/
theorem onchain_ratios_bounds_witness :
    0 ≤ (extractOnchainFeatures testPrims defaultConfig exampleRecord).getQ
          "contract_interaction_ratio"
    ∧ (extractOnchainFeatures testPrims defaultConfig exampleRecord).getQ
          "contract_interaction_ratio" ≤ 1 := by
  have h := onchain_ratios_bounds testPrims defaultConfig exampleRecord
    (by norm_num [RawWalletRecord.nonNegSignals, exampleRecord])
  exact ⟨h.1.1, h.2.1 (by norm_num [exampleRecord])⟩

/-- Counterexample to C2 as stated: the record whose only present signal is
`unique_contracts_interacted = 2` has all recognized numeric signals
non-negative, yet `contract_diversity = 2 / max(0, 1) = 2 > 1`. -/
theorem contract_diversity_exceeds_one :
    soloUniqueRecord.nonNegSignals
    ∧ (extractOnchainFeatures testPrims defaultConfig soloUniqueRecord).getQ
          "contract_diversity" = 2
    ∧ ¬((extractOnchainFeatures testPrims defaultConfig soloUniqueRecord).getQ
          "contract_diversity" ≤ 1) := by
  refine ⟨by norm_num [RawWalletRecord.nonNegSignals, soloUniqueRecord, emptyRecord], ?_, ?_⟩
  · unfold FeatureMap.getQ
    rw [find_onchain_contract_diversity]
    norm_num [soloUniqueRecord, emptyRecord]
  · unfold FeatureMap.getQ
    rw [find_onchain_contract_diversity]
    norm_num [soloUniqueRecord, emptyRecord]

theorem find_cons (p : String × ℚ) (t : FeatureMap) (k : String) :
    FeatureMap.find (p :: t) k = if p.1 = k then some p.2 else FeatureMap.find t k := rfl

theorem clipEntry_fst (e : FeatureEngineer) (p : String × ℚ) :
    (clipEntry e p).1 = p.1 := by
  simp only [clipEntry]
  repeat' split
  all_goals rfl

theorem handleOutliers_keys (e : FeatureEngineer) (f : FeatureMap) :
    (handleOutliers e f).map Prod.fst = f.map Prod.fst := by
  induction f with
  | nil => rfl
  | cons p t ih =>
    simp only [handleOutliers, List.map_cons] at *
    rw [clipEntry_fst, ih]

theorem find_handleOutliers (e : FeatureEngineer) (f : FeatureMap) (k : String) :
    (handleOutliers e f).find k = (f.find k).map (fun v => (clipEntry e (k, v)).2) := by
  induction f with
  | nil => rfl
  | cons p t ih =>
    show FeatureMap.find (List.map (clipEntry e) (p :: t)) k
      = (FeatureMap.find (p :: t) k).map (fun v => (clipEntry e (k, v)).2)
    rw [List.map_cons, find_cons, find_cons, clipEntry_fst]
    by_cases h : p.1 = k
    · subst h
      rw [if_pos rfl, if_pos rfl]
      rfl
    · rw [if_neg h, if_neg h]
      exact ih

theorem clipEntry_not_continuous (e : FeatureEngineer) (p : String × ℚ)
    (h : p.1 ∉ continuousFeatures) : clipEntry e p = p := by
  unfold clipEntry
  rw [if_neg h]

theorem clipEntry_unfitted (e : FeatureEngineer) (p : String × ℚ)
    (h : e.is_fitted = false) : clipEntry e p = p := by
  unfold clipEntry
  rw [h]
  split
  · rfl
  · rfl

/-- The full documented feature-name set, in emission order: the 20 onchain
names, the 9 offchain names, the 3 composite names. -/
def allFeatureNames : List String :=
  [ "tx_count", "tx_count_log", "contract_interactions", "contract_interaction_ratio",
    "unique_contracts", "contract_diversity", "avg_tx_value", "avg_tx_value_log",
    "swap_frequency", "swap_ratio", "bridge_transactions", "bridge_ratio",
    "portfolio_volatility", "portfolio_stability", "token_count",
    "token_concentration", "token_diversity", "account_age", "account_age_log",
    "tx_per_day",
    "has_ens", "farcaster_followers", "farcaster_followers_log", "has_farcaster",
    "github_contributions", "github_contributions_log", "has_github",
    "social_signal_count", "social_presence",
    "activity_social_score", "trust_indicators", "risk_indicators" ]

/-- Claim C4: for every raw wallet record — the all-absent record included —
`engineer_features` emits exactly the full documented feature-name set, in
the same order, and features of absent signals take their zero-input values
(the all-absent record and the all-zero record yield the same map). -/
theorem engineerFeatures_full_key_set (P : MathPrims) (e : FeatureEngineer)
    (w : RawWalletRecord) :
    (engineerFeatures P e w).map Prod.fst = allFeatureNames
    ∧ engineerFeatures P e emptyRecord = engineerFeatures P e zeroRecord := by
  constructor
  · unfold engineerFeatures
    split
    · rw [handleOutliers_keys]
      rfl
    · rfl
  · rfl

/-- Claim C9: outlier handling keeps the key list intact, changes no feature
outside the eight-name continuous whitelist, is the identity before fitting,
and — once fitted with statistics carrying a mean for the feature — replaces
a whitelisted value v by `mean + sign(v−mean)·threshold·std` exactly when
`|v − mean| > threshold·std`, leaving it alone otherwise. -/
theorem handleOutliers_frame (e : FeatureEngineer) (f : FeatureMap) :
    ((handleOutliers e f).map Prod.fst = f.map Prod.fst)
    ∧ (∀ k, k ∉ continuousFeatures → (handleOutliers e f).find k = f.find k)
    ∧ (e.is_fitted = false → handleOutliers e f = f)
    ∧ (∀ st k m v, e.is_fitted = true → e.feature_stats = some st →
        k ∈ continuousFeatures → st.mean.find k = some m → f.find k = some v →
        (handleOutliers e f).find k =
          some (if |v - m| > e.config.outlier_threshold * ((st.std.find k).getD 0)
                then m + signQ (v - m) * e.config.outlier_threshold * ((st.std.find k).getD 0)
                else v)) := by
  refine ⟨handleOutliers_keys e f, ?_, ?_, ?_⟩
  · intro k hk
    rw [find_handleOutliers]
    cases hfind : f.find k with
    | none => rfl
    | some v =>
      show some (clipEntry e (k, v)).2 = some v
      rw [clipEntry_not_continuous e (k, v) hk]
  · intro hfit
    show f.map (clipEntry e) = f
    have h : ∀ p ∈ f, clipEntry e p = p := fun p _ => clipEntry_unfitted e p hfit
    calc f.map (clipEntry e) = f.map id := List.map_congr_left h
    _ = f := List.map_id f
  · intro st k m v hfit hstats hk hmean hfind
    rw [find_handleOutliers, hfind]
    show some (clipEntry e (k, v)).2 = _
    have hclip : clipEntry e (k, v)
        = if |v - m| > e.config.outlier_threshold * ((st.std.find k).getD 0)
          then (k, m + signQ (v - m) * e.config.outlier_threshold * ((st.std.find k).getD 0))
          else (k, v) := by
      simp only [clipEntry, if_pos hk, hfit, hstats, hmean]
    rw [hclip]
    split
    · rfl
    · rfl

/-- A fitted engineer with statistics for `tx_count` only, used to witness
the clipping branch of C9. -/
def fittedStatsEx : FeatureStats :=
  { mean := [("tx_count", 10)], std := [("tx_count", 1)],
    smin := [("tx_count", 7)], smax := [("tx_count", 13)],
    median := [("tx_count", 10)] }

/-- A fitted engineer state for witnesses. -/
def fittedEngineerEx : FeatureEngineer :=
  { config := defaultConfig
    scalers := [("tx_count", { center := 10, scale := 3 })]
    feature_stats := some fittedStatsEx
    is_fitted := true }

/-- Witness for C9: with mean 10, std 1 and threshold 3, the value 100 of
`tx_count` is clipped to 10 + 1·3·1 = 13. -/
theorem handleOutliers_frame_witness :
    (handleOutliers fittedEngineerEx [("tx_count", 100)]).find "tx_count" = some 13 := by
  have h := (handleOutliers_frame fittedEngineerEx [("tx_count", 100)]).2.2.2
    fittedStatsEx "tx_count" 10 100 rfl rfl (by simp [continuousFeatures]) rfl rfl
  rw [h]
  norm_num [fittedStatsEx, fittedEngineerEx, defaultConfig, signQ, FeatureMap.find]

/-- The signed (un-normalized) total `Σ raw_contribution`. -/
def sumRawContribution (names : List String) (scaled : FeatureMap) : ℚ :=
  (names.map (fun n => rawContribution scaled n)).sum

theorem map_contribution_update (l : List FeatureContribution) (q : ℚ) :
    (l.map (fun c => { c with contribution := c.contribution * q })).map
        (fun c => c.contribution)
      = (l.map (fun c => c.contribution)).map (fun x => x * q) := by
  induction l with
  | nil => rfl
  | cons c t ih => simp only [List.map_cons, ih]

theorem sum_map_mul_right (l : List ℚ) (q : ℚ) :
    (l.map (fun x => x * q)).sum = l.sum * q := by
  induction l with
  | nil => simp
  | cons x t ih =>
    simp only [List.map_cons, List.sum_cons, ih]
    ring

theorem detRaws_contributions (names : List String) (scaled : FeatureMap) :
    (names.map (detRawContribution scaled)).map (fun c => c.contribution)
      = names.map (fun n => rawContribution scaled n) := by
  rw [List.map_map]
  rfl

/-- Claim C1 (amended): when the normalization base `Σ|raw|` is strictly
positive, the deterministic contributions sum to
`(predicted_score − 50) · (Σ raw) / (Σ |raw|)` — equal to
`predicted_score − 50` exactly when the signed and absolute totals agree
(e.g. all raw contributions non-negative), but not in general, since mixed
signs make `Σ raw ≠ Σ |raw|`; when the base is zero, rescaling is skipped
and the contributions are the raw weighted values. -/
theorem deterministic_contributions_sum (names : List String) (scaled : FeatureMap)
    (predicted_score : ℚ) :
    (totalAbsContribution names scaled > 0 →
      ((getDeterministicContributions names scaled predicted_score).map
          (fun c => c.contribution)).sum
        = (predicted_score - 50) * sumRawContribution names scaled
            / totalAbsContribution names scaled)
    ∧ (totalAbsContribution names scaled = 0 →
      (getDeterministicContributions names scaled predicted_score).map
          (fun c => c.contribution)
        = names.map (fun n => rawContribution scaled n))
    ∧ (totalAbsContribution names scaled > 0 →
       sumRawContribution names scaled = totalAbsContribution names scaled →
      ((getDeterministicContributions names scaled predicted_score).map
          (fun c => c.contribution)).sum = predicted_score - 50) := by
  have hpossum : totalAbsContribution names scaled > 0 →
      ((getDeterministicContributions names scaled predicted_score).map
          (fun c => c.contribution)).sum
        = sumRawContribution names scaled
            * ((predicted_score - 50) / totalAbsContribution names scaled) := by
    intro hpos
    unfold getDeterministicContributions
    rw [if_pos hpos, map_contribution_update, detRaws_contributions, sum_map_mul_right]
    rfl
  refine ⟨?_, ?_, ?_⟩
  · intro hpos
    rw [hpossum hpos]
    ring
  · intro hzero
    unfold getDeterministicContributions
    rw [if_neg (by rw [hzero]; exact lt_irrefl 0)]
    exact detRaws_contributions names scaled
  · intro hpos heq
    rw [hpossum hpos, heq, mul_comm, div_mul_cancel₀ _ (ne_of_gt hpos)]

/-- Witness for the amended C1: one feature `tx_count_log` with scaled value
1 gives raw contribution 15, base 15, and at predicted score 60 the rescaled
contributions sum to exactly 10 = 60 − 50. -/
theorem deterministic_contributions_sum_witness :
    ((getDeterministicContributions ["tx_count_log"] [("tx_count_log", 1)] 60).map
        (fun c => c.contribution)).sum = 10 := by
  have hraw : rawContribution [("tx_count_log", (1 : ℚ))] "tx_count_log" = 15 := by
    have hw : FeatureMap.find featureImportanceWeights "tx_count_log" = some (15/100) := rfl
    have hv : FeatureMap.find [("tx_count_log", (1 : ℚ))] "tx_count_log" = some 1 := rfl
    unfold rawContribution FeatureMap.getQ
    rw [hw, hv]
    norm_num
  have hT : totalAbsContribution ["tx_count_log"] [("tx_count_log", (1 : ℚ))] = 15 := by
    unfold totalAbsContribution
    rw [List.map_cons, List.map_nil, List.sum_cons, List.sum_nil, hraw]
    norm_num
  have hS : sumRawContribution ["tx_count_log"] [("tx_count_log", (1 : ℚ))] = 15 := by
    unfold sumRawContribution
    rw [List.map_cons, List.map_nil, List.sum_cons, List.sum_nil, hraw]
    norm_num
  have h := (deterministic_contributions_sum ["tx_count_log"] [("tx_count_log", 1)] 60).2.2
    (by rw [hT]; norm_num) (by rw [hT, hS])
  rw [h]
  norm_num

/-- Counterexample to C1 as stated: with the single declared feature
`risk_indicators` (weight −0.03) at scaled value 1 and predicted score 60,
the base is 3 > 0 but the returned contributions sum to −10, not
60 − 50 = 10. -/
theorem deterministic_contributions_sign_flip :
    totalAbsContribution ["risk_indicators"] [("risk_indicators", 1)] = 3
    ∧ ((getDeterministicContributions ["risk_indicators"] [("risk_indicators", 1)] 60).map
        (fun c => c.contribution)).sum = -10
    ∧ ((-10 : ℚ) ≠ 60 - 50) := by
  have hraw : rawContribution [("risk_indicators", (1 : ℚ))] "risk_indicators" = -3 := by
    have hw : FeatureMap.find featureImportanceWeights "risk_indicators"
        = some (-3/100) := rfl
    have hv : FeatureMap.find [("risk_indicators", (1 : ℚ))] "risk_indicators" = some 1 := rfl
    unfold rawContribution FeatureMap.getQ
    rw [hw, hv]
    norm_num
  have hT : totalAbsContribution ["risk_indicators"] [("risk_indicators", (1 : ℚ))] = 3 := by
    unfold totalAbsContribution
    rw [List.map_cons, List.map_nil, List.sum_cons, List.sum_nil, hraw]
    norm_num
  refine ⟨hT, ?_, by norm_num⟩
  unfold getDeterministicContributions
  rw [if_pos (by rw [hT]; norm_num), map_contribution_update, detRaws_contributions,
    sum_map_mul_right, hT]
  rw [List.map_cons, List.map_nil, List.sum_cons, List.sum_nil, hraw]
  norm_num

/-- The confidence formula as the specification words it: availability
fraction scaled to 40 points, plus `min(Σ importance / 20, 1)` scaled to 30
points when the total importance is positive, plus the fraction of the fixed
5-feature quality whitelist with strictly positive scaled value scaled to 30
points, clamped to 100. -/
def confidenceSpec (names : List String) (scaled : FeatureMap)
    (contributions : List FeatureContribution) : ℚ :=
  let availFrac := (((names.filter (fun n => scaled.getQ n ≠ 0)).length : ℚ)
      / (names.length : ℚ))
  let totalImp := (contributions.map (fun c => c.importance)).sum
  let impComponent := if totalImp > 0 then min (totalImp / 20) 1 * 30 else 0
  let qualFrac := (((qualityFeatures.filter (fun n => scaled.getQ n > 0)).length : ℚ) / 5)
  min (availFrac * 40 + impComponent + qualFrac * 30) 100

/-- Claim C6: for a non-empty declared feature-name list, the computed
confidence equals the spec's three-component formula, and it always lies in
[0, 100]. -/
theorem calculateConfidence_spec_bounds (names : List String) (scaled : FeatureMap)
    (contributions : List FeatureContribution) (h : names ≠ []) :
    calculateConfidence names scaled contributions
      = confidenceSpec names scaled contributions
    ∧ 0 ≤ calculateConfidence names scaled contributions
    ∧ calculateConfidence names scaled contributions ≤ 100 := by
  have hlen : (0 : ℚ) < (names.length : ℚ) := by
    exact_mod_cast List.length_pos.mpr h
  refine ⟨?_, ?_, ?_⟩
  · have h5 : ((qualityFeatures.length : ℕ) : ℚ) = 5 := rfl
    unfold calculateConfidence confidenceSpec
    rw [h5]
  · unfold calculateConfidence
    refine le_min ?_ (by norm_num)
    have h1 : (0 : ℚ) ≤ (((names.filter (fun n => scaled.getQ n ≠ 0)).length : ℚ)
        / (names.length : ℚ)) * 40 := by
      apply mul_nonneg _ (by norm_num)
      exact div_nonneg (Nat.cast_nonneg _) (Nat.cast_nonneg _)
    have h2 : (0 : ℚ) ≤ (if ((contributions.map (fun c => c.importance)).sum) > 0
        then min (((contributions.map (fun c => c.importance)).sum) / 20) 1 * 30 else 0) := by
      split
      · apply mul_nonneg _ (by norm_num)
        apply le_min _ (by norm_num)
        apply div_nonneg _ (by norm_num)
        linarith
      · exact le_refl 0
    have h3 : (0 : ℚ) ≤ (((qualityFeatures.filter (fun n => scaled.getQ n > 0)).length : ℚ)
        / ((qualityFeatures.length : ℕ) : ℚ)) * 30 := by
      apply mul_nonneg _ (by norm_num)
      exact div_nonneg (Nat.cast_nonneg _) (Nat.cast_nonneg _)
    exact add_nonneg (add_nonneg h1 h2) h3
  · exact min_le_right _ _

/-- Witness for C6: one declared nonzero feature, no contributions:
confidence = 40 + 0 + 6 = 46, inside [0, 100]. -/
theorem calculateConfidence_spec_bounds_witness :
    calculateConfidence ["tx_count_log"] [("tx_count_log", 1)] []
      = confidenceSpec ["tx_count_log"] [("tx_count_log", 1)] []
    ∧ 0 ≤ calculateConfidence ["tx_count_log"] [("tx_count_log", 1)] []
    ∧ calculateConfidence ["tx_count_log"] [("tx_count_log", 1)] [] ≤ 100 :=
  calculateConfidence_spec_bounds ["tx_count_log"] [("tx_count_log", 1)] []
    (by simp)

/-- Claim C7: fitting scalers on an empty batch fails with the configuration
error and leaves the engineer state — scaler store, statistics, fitted flag —
exactly as it was; on the fresh engineer the fitted flag stays false. -/
theorem fitScalers_empty_batch (P : MathPrims) (e : FeatureEngineer) :
    fitScalers P e [] = (e, Except.error "No feature data provided for fitting scalers")
    ∧ (fitScalers P initEngineer []).1.is_fitted = false := by
  exact ⟨rfl, rfl⟩

/-- Claim C8: transforming features before any successful fit returns the
input map unchanged — identical keys and values — and raises nothing (the
warning diagnostic is a logging side channel outside the embedded state). -/
theorem transformFeatures_unfitted (e : FeatureEngineer) (f : FeatureMap)
    (h : e.is_fitted = false) :
    transformFeatures e f = f := by
  unfold transformFeatures
  rw [h]
  simp

/-- Witness for C8: the fresh engineer passes a map through unchanged. -/
theorem transformFeatures_unfitted_witness :
    transformFeatures initEngineer [("tx_count", 5)] = [("tx_count", 5)] :=
  transformFeatures_unfitted initEngineer [("tx_count", 5)] rfl

/-- Claim C10: `save_scalers` on an unfitted engineer writes nothing, and the
value returned to the caller is the same (None, no exception) whether the
guard skipped the dump or not — the outcome alone cannot distinguish the
two. -/
theorem saveScalers_unfitted_noop (e : FeatureEngineer) (h : e.is_fitted = false) :
    (saveScalers e).2 = none
    ∧ (∀ e' : FeatureEngineer, (saveScalers e').1 = ()) := by
  constructor
  · unfold saveScalers
    rw [h]
    rfl
  · intro e'
    rfl

/-- Witness for C10 on the fresh engineer. -/
theorem saveScalers_unfitted_noop_witness :
    (saveScalers initEngineer).2 = none :=
  (saveScalers_unfitted_noop initEngineer rfl).1

/-- Claim C3 (amended): when the model-based attribution path fails at
explanation time, `explain_prediction` still returns (no error escapes) and
its contributions are the deterministic fallback applied to the same scaled
feature map — but at the neutral base score 50.0, not at the request's
actual predicted score. -/
theorem explainPrediction_attribution_failure (P : MathPrims) (e : FeatureEngineer)
    (names : List String) (model : List ℚ → ℚ) (exFn : List ℚ → Except Unit (List ℚ))
    (w : RawWalletRecord)
    (hfail : exFn (names.map (fun n =>
        (transformFeatures e (engineerFeatures P e w)).getQ n)) = Except.error ()) :
    (explainPrediction P e names model (some exFn) w).feature_contributions
      = getDeterministicContributions names
          (transformFeatures e (engineerFeatures P e w)) 50 := by
  show getShapContributions (exFn (names.map (fun n =>
        (transformFeatures e (engineerFeatures P e w)).getQ n))) names
      (transformFeatures e (engineerFeatures P e w)) = _
  rw [hfail]
  rfl

/-- Witness for the amended C3: a constant-failure explainer on the fresh
pipeline state yields exactly the deterministic contributions at score 50. -/
theorem explainPrediction_attribution_failure_witness :
    (explainPrediction testPrims initEngineer ["tx_count_log"] (fun _ => 60)
        (some (fun _ => Except.error ())) emptyRecord).feature_contributions
      = getDeterministicContributions ["tx_count_log"]
          (transformFeatures initEngineer
            (engineerFeatures testPrims initEngineer emptyRecord)) 50 :=
  explainPrediction_attribution_failure testPrims initEngineer ["tx_count_log"]
    (fun _ => 60) (fun _ => Except.error ()) emptyRecord rfl

/-- The record whose only present signal is `total_transactions = 3`. -/
def soloTxRecord : RawWalletRecord :=
  { emptyRecord with total_transactions := some 3 }

/-- Counterexample to C3 as stated: with a failing explainer, one declared
feature `tx_count_log` (scaled value 3, raw weighted contribution 45) and a
model predicting 60, the request's contributions are all 0 (deterministic
rescaling at the hardcoded score 50 gives deviation 0), whereas the
deterministic path at the actual predicted score 60 gives contribution 10 —
so the returned contributions do not equal the fallback at the actual
predicted score. -/
theorem explainPrediction_fallback_ignores_score :
    ((explainPrediction testPrims initEngineer ["tx_count_log"] (fun _ => 60)
        (some (fun _ => Except.error ())) soloTxRecord).feature_contributions.map
          (fun c => c.contribution)) = [0]
    ∧ (explainPrediction testPrims initEngineer ["tx_count_log"] (fun _ => 60)
        (some (fun _ => Except.error ())) soloTxRecord).predicted_score = 60
    ∧ ((getDeterministicContributions ["tx_count_log"]
          (transformFeatures initEngineer
            (engineerFeatures testPrims initEngineer soloTxRecord)) 60).map
          (fun c => c.contribution)) = [10]
    ∧ (([(0 : ℚ)] : List ℚ) ≠ [10]) := by
  have hscaled : transformFeatures initEngineer
      (engineerFeatures testPrims initEngineer soloTxRecord)
      = engineerFeatures testPrims initEngineer soloTxRecord := rfl
  have hget : (engineerFeatures testPrims initEngineer soloTxRecord).getQ "tx_count_log"
      = 3 := rfl
  have hraw : rawContribution
      (engineerFeatures testPrims initEngineer soloTxRecord) "tx_count_log" = 45 := by
    have hw : FeatureMap.find featureImportanceWeights "tx_count_log" = some (15/100) := rfl
    unfold rawContribution
    rw [hw, hget]
    norm_num
  have hT : totalAbsContribution ["tx_count_log"]
      (engineerFeatures testPrims initEngineer soloTxRecord) = 45 := by
    unfold totalAbsContribution
    rw [List.map_cons, List.map_nil, List.sum_cons, List.sum_nil, hraw]
    norm_num
  have hdet : ∀ q : ℚ,
      ((getDeterministicContributions ["tx_count_log"]
          (engineerFeatures testPrims initEngineer soloTxRecord) q).map
        (fun c => c.contribution)) = [45 * ((q - 50) / 45)] := by
    intro q
    unfold getDeterministicContributions
    rw [if_pos (by rw [hT]; norm_num), map_contribution_update, detRaws_contributions, hT]
    rw [List.map_cons, List.map_nil, hraw, List.map_cons, List.map_nil]
  refine ⟨?_, rfl, ?_, by norm_num⟩
  · show ((getShapContributions (Except.error ()) ["tx_count_log"]
        (transformFeatures initEngineer
          (engineerFeatures testPrims initEngineer soloTxRecord))).map
        (fun c => c.contribution)) = [0]
    show ((getDeterministicContributions ["tx_count_log"]
        (transformFeatures initEngineer
          (engineerFeatures testPrims initEngineer soloTxRecord)) 50).map
        (fun c => c.contribution)) = [0]
    rw [hscaled, hdet 50]
    norm_num
  · rw [hscaled, hdet 60]
    norm_num

end ChainYodha
